import Mathlib

/-!
Verification of the twitter-skill OAuth 2.0 PKCE token-lifecycle code
(scripts/lib/auth.ts and scripts/twitter.ts), as a shallow embedding.

Timestamps are modelled as `Int` milliseconds (JS `Date.now()`), file
contents as parsed records, and the network as oracle functions passed in
as arguments.  JavaScript truthiness on optional JSON fields (absent,
`""` and `0` are falsy) is modelled explicitly.
-/

namespace TwitterSkill

/-- Truthiness of an optional JS string (query parameter or JSON field):
`undefined`/`null` and the empty string are falsy. -/
def strTruthy : Option String → Bool
  | none => false
  | some s => s ≠ ""

/-- JS `x || d` for an optional string field. -/
def strOrDefault (x : Option String) (d : String) : String :=
  match x with
  | none => d
  | some s => if s = "" then d else s

/-- JS `x || d` for an optional number field: `undefined` and `0` fall back. -/
def numOrDefault (x : Option Int) (d : Int) : Int :=
  match x with
  | none => d
  | some n => if n = 0 then d else n

/-- The OAuth scopes requested by the skill (`SCOPES` in auth.ts). -/
def SCOPES : String :=
  "tweet.read tweet.write users.read list.read list.write like.read like.write offline.access"

/-- The 5-minute refresh buffer used by `getValidAccessToken` (ms). -/
def bufferMs : Int := 5 * 60 * 1000

-- ===========================================================================
-- Byte-string encodings (node:crypto `toString("base64url")` / `"hex")`)
-- ===========================================================================

/-- The base64url alphabet (RFC 4648 §5). -/
def base64urlAlphabet : List Char :=
  "ABCDEFGHIJKLMNOPQRSTUVWXYZabcdefghijklmnopqrstuvwxyz0123456789-_".toList

/-- Character for a 6-bit group. -/
def b64Char (n : Nat) : Char := base64urlAlphabet.getD n 'A'

/-- Index of a base64url character in the alphabet. -/
def b64Index (c : Char) : Nat := base64urlAlphabet.indexOf c

/-- Unpadded base64url encoding of a byte list, three bytes at a time
(matching node Buffer.toString("base64url"), which emits no `=` padding). -/
def b64urlEncodeCore : List Nat → List Char
  | [] => []
  | [a] => [b64Char (a / 4), b64Char (a % 4 * 16)]
  | [a, b] => [b64Char (a / 4), b64Char (a % 4 * 16 + b / 16), b64Char (b % 16 * 4)]
  | a :: b :: c :: rest =>
      b64Char (a / 4) :: b64Char (a % 4 * 16 + b / 16) ::
      b64Char (b % 16 * 4 + c / 64) :: b64Char (c % 64) :: b64urlEncodeCore rest

/-- Unpadded base64url encoding as a string. -/
def b64urlEncode (bytes : List Nat) : String := ⟨b64urlEncodeCore bytes⟩

/-- Inverse of `b64urlEncodeCore`, used to prove the encoding injective. -/
def b64urlDecodeCore : List Char → List Nat
  | [] => []
  | [_] => []
  | [c1, c2] => [b64Index c1 * 4 + b64Index c2 / 16]
  | [c1, c2, c3] =>
      [b64Index c1 * 4 + b64Index c2 / 16,
       b64Index c2 % 16 * 16 + b64Index c3 / 4]
  | c1 :: c2 :: c3 :: c4 :: rest =>
      (b64Index c1 * 4 + b64Index c2 / 16) ::
      (b64Index c2 % 16 * 16 + b64Index c3 / 4) ::
      (b64Index c3 % 4 * 64 + b64Index c4) :: b64urlDecodeCore rest

/-- The lowercase hex alphabet. -/
def hexAlphabet : List Char := "0123456789abcdef".toList

/-- Hex character for a 4-bit group. -/
def hexChar (n : Nat) : Char := hexAlphabet.getD n '0'

/-- Index of a hex character. -/
def hexIndex (c : Char) : Nat := hexAlphabet.indexOf c

/-- Lowercase hex encoding of a byte list (node Buffer.toString("hex")). -/
def hexEncodeCore : List Nat → List Char
  | [] => []
  | b :: rest => hexChar (b / 16) :: hexChar (b % 16) :: hexEncodeCore rest

/-- Lowercase hex encoding as a string. -/
def hexEncode (bytes : List Nat) : String := ⟨hexEncodeCore bytes⟩

/-- Inverse of `hexEncodeCore`. -/
def hexDecodeCore : List Char → List Nat
  | c1 :: c2 :: rest => (hexIndex c1 * 16 + hexIndex c2) :: hexDecodeCore rest
  | _ => []

-- ===========================================================================
-- PKCE helpers (auth.ts `generateCodeVerifier` / `generateCodeChallenge` /
-- `generateState`)
-- ===========================================================================

/-- `crypto.randomBytes(32).toString("base64url")`: the entropy-source bytes
are passed in explicitly. -/
def generateCodeVerifier (entropy : List Nat) : String := b64urlEncode entropy

/-- `crypto.createHash("sha256").update(verifier).digest("base64url")`.
SHA-256 itself is the platform primitive `node:crypto`, abstracted as a
function argument. -/
def generateCodeChallenge (sha256 : String → List Nat) (verifier : String) : String :=
  b64urlEncode (sha256 verifier)

/-- `crypto.randomBytes(16).toString("hex")`. -/
def generateState (entropy : List Nat) : String := hexEncode entropy

/-- A PKCE session as generated at the start of `performAuth`. -/
structure PKCESession where
  code_verifier : String
  code_challenge : String
  state : String
deriving DecidableEq

/-- The verifier/challenge/state triple generated by `performAuth` from two
independent draws of the entropy source. -/
def generatePKCESession (sha256 : String → List Nat)
    (verifierEntropy stateEntropy : List Nat) : PKCESession :=
  let v := generateCodeVerifier verifierEntropy
  ⟨v, generateCodeChallenge sha256 v, generateState stateEntropy⟩

-- ===========================================================================
-- Data model
-- ===========================================================================

/-- `TokenData` in auth.ts. -/
structure TokenData where
  access_token : String
  refresh_token : String
  expires_at : Int
  scope : String
  token_type : String
deriving DecidableEq

/-- The two token-file locations: `.claude/twitter-skill.local.json` in the
project and `tokens.json` in the global config directory. -/
inductive TokenPath
  | project
  | global
deriving DecidableEq

/-- The state of the two token-file locations.  `none` means the file is
absent; `some td` means it exists and parses to `td`. -/
structure TokenStore where
  projectFile : Option TokenData
  globalFile : Option TokenData
deriving DecidableEq

/-- One distinct error per `throw` site of auth.ts. -/
inductive AuthError
  | credentialsMissing
  | tokenNotFound
  | refreshFailed (detail : String)
  | invalidTokenResponse
  | oauthDenied (err desc : String)
  | csrfMismatch
  | tokenExchangeFailed (detail : String)
  | missingRefreshToken
  | authTimeout
deriving DecidableEq

/-- The message string thrown at each site.  Messages that interpolate
environment-dependent file-system paths are truncated at the interpolation
point; the others are the exact source strings. -/
def AuthError.message : AuthError → String
  | .credentialsMissing => "No credentials found. Run: pnpm tsx scripts/twitter.ts setup"
  | .tokenNotFound => "Token not found. Run: pnpm tsx scripts/twitter.ts auth"
  | .refreshFailed detail => "Token refresh failed: " ++ detail
  | .invalidTokenResponse => "Invalid token response from Twitter"
  | .oauthDenied err desc => err ++ ": " ++ desc
  | .csrfMismatch => "State mismatch - possible CSRF attack"
  | .tokenExchangeFailed detail => "Token exchange failed: " ++ detail
  | .missingRefreshToken =>
      "No refresh token received.\n" ++
      "This can happen if you\x27ve already authorized this app.\n" ++
      "Fix: Go to https://twitter.com/settings/connected_apps\n" ++
      "     Remove access for this app, then run auth again."
  | .authTimeout => "Authentication timeout (5 minutes)"

/-- Whether an error is the token-refresh failure of the spec taxonomy
(either `throw` in `refreshAccessToken`). -/
def AuthError.isTokenRefreshFailed : AuthError → Bool
  | .refreshFailed _ => true
  | .invalidTokenResponse => true
  | _ => false

/-- The parsed JSON body of a token-endpoint response (used both for the
authorization-code exchange and for refresh). -/
structure TokenEndpointResponse where
  access_token : Option String
  refresh_token : Option String
  expires_in : Option Int
  scope : Option String
  token_type : Option String
  error : Option String
  error_description : Option String
deriving DecidableEq

-- ===========================================================================
-- Token store (auth.ts `findTokenPath` / `loadToken` / `saveToken`)
-- ===========================================================================

/-- `findTokenPath`: check the project-local file first (`fs.access`), then
fall back to the global config file. -/
def findTokenPath (s : TokenStore) : Option TokenPath :=
  if s.projectFile.isSome then some .project
  else if s.globalFile.isSome then some .global
  else none

/-- Contents of the file at a path. -/
def readTokenFile (s : TokenStore) : TokenPath → Option TokenData
  | .project => s.projectFile
  | .global => s.globalFile

/-- `loadToken`: resolve a path, fail if none, then read the file there.
The inner `none` branch is unreachable (`findTokenPath` only returns paths
whose file exists). -/
def loadToken (s : TokenStore) : Except AuthError TokenData :=
  match findTokenPath s with
  | none => .error .tokenNotFound
  | some p =>
    match readTokenFile s p with
    | some td => .ok td
    | none => .error .tokenNotFound

/-- `saveToken(tokenData, global)`: overwrite the whole record at the chosen
location. -/
def saveToken (s : TokenStore) (td : TokenData) (global : Bool) : TokenStore :=
  if global then { s with globalFile := some td }
  else { s with projectFile := some td }

-- ===========================================================================
-- Token refresh (auth.ts `refreshAccessToken`)
-- ===========================================================================

/-- The response-validation and record-construction part of
`refreshAccessToken`: fail on a truthy `error` field, fail if either token
is missing/empty, otherwise build the new record. -/
def refreshAccessToken (now : Int) (data : TokenEndpointResponse) :
    Except AuthError TokenData :=
  if strTruthy data.error then
    .error (.refreshFailed (strOrDefault data.error_description (data.error.getD "")))
  else if !(strTruthy data.access_token && strTruthy data.refresh_token) then
    .error .invalidTokenResponse
  else
    .ok {
      access_token := data.access_token.getD ""
      refresh_token := data.refresh_token.getD ""
      expires_at := now + numOrDefault data.expires_in 7200 * 1000
      scope := strOrDefault data.scope SCOPES
      token_type := strOrDefault data.token_type "bearer"
    }

/-- A refreshed record together with the store after the save-back
(`refreshAccessToken` saves to the original location: global iff the path it
was loaded from is the global one). -/
structure RefreshOutcome where
  tokenData : TokenData
  store : TokenStore
deriving DecidableEq

/-- `refreshAccessToken` including the save-back to `tokenPath`. -/
def refreshAccessTokenAt (s : TokenStore) (p : TokenPath) (now : Int)
    (data : TokenEndpointResponse) : Except AuthError RefreshOutcome :=
  match refreshAccessToken now data with
  | .error e => .error e
  | .ok td => .ok ⟨td, saveToken s td (p == .global)⟩

-- ===========================================================================
-- `getValidAccessToken` (auth.ts)
-- ===========================================================================

/-- Result of `getValidAccessToken`: the returned access token and updated
store on success, plus the refresh token sent to the token endpoint when a
refresh was attempted (`none` when it was not). -/
structure GetTokenResult where
  result : Except AuthError (String × TokenStore)
  refreshRequest : Option String

/-- `getValidAccessToken`: find and read the token record, refresh if
`expires_at < now + bufferMs`, return the (possibly refreshed) access token.
The refresh network call is the oracle `refreshEndpoint`, applied to the
refresh token sent in the POST body. -/
def getValidAccessToken (s : TokenStore) (now : Int)
    (refreshEndpoint : String → TokenEndpointResponse) : GetTokenResult :=
  match findTokenPath s with
  | none => ⟨.error .tokenNotFound, none⟩
  | some p =>
    match readTokenFile s p with
    | none => ⟨.error .tokenNotFound, none⟩
    | some tokenData =>
      if tokenData.expires_at < now + bufferMs then
        match refreshAccessTokenAt s p now (refreshEndpoint tokenData.refresh_token) with
        | .error e => ⟨.error e, some tokenData.refresh_token⟩
        | .ok out => ⟨.ok (out.tokenData.access_token, out.store), some tokenData.refresh_token⟩
      else
        ⟨.ok (tokenData.access_token, s), none⟩

-- ===========================================================================
-- Local callback listener (the `http.createServer` handler in `performAuth`)
-- ===========================================================================

/-- The query parameters extracted from one request to the local callback
server (`url.searchParams.get` returns `null` for an absent parameter). -/
structure CallbackRequest where
  code : Option String
  state : Option String
  error : Option String
  error_description : Option String
deriving DecidableEq

/-- What the request handler does with one request. -/
inductive CallbackStep
  | reject (e : AuthError) (status : Nat)
  | resolve (code : String) (status : Nat)
  | keepListening (status : Nat)
deriving DecidableEq

/-- The per-request handler: a truthy `error` rejects with the OAuth denial,
then a `state` different from the expected one rejects as a CSRF mismatch,
then a truthy `code` resolves, and anything else answers 404 and keeps the
server listening. -/
def handleCallbackRequest (expectedState : String) (req : CallbackRequest) :
    CallbackStep :=
  if strTruthy req.error then
    .reject (.oauthDenied (req.error.getD "") (req.error_description.getD "")) 400
  else if req.state ≠ some expectedState then
    .reject .csrfMismatch 400
  else if strTruthy req.code then
    .resolve (req.code.getD "") 200
  else
    .keepListening 404

/-- Outcome of awaiting the callback. -/
inductive ListenerResult
  | resolved (code : String)
  | rejected (e : AuthError)
  | timedOut
deriving DecidableEq

/-- The listener over the sequence of requests arriving before the 5-minute
timeout fires: the first resolving or rejecting request settles the promise
and closes the server; if none does, the timeout rejects. -/
def runListener (expectedState : String) : List CallbackRequest → ListenerResult
  | [] => .timedOut
  | req :: rest =>
    match handleCallbackRequest expectedState req with
    | .reject e _ => .rejected e
    | .resolve code _ => .resolved code
    | .keepListening _ => runListener expectedState rest

-- ===========================================================================
-- Authorization-code exchange and `performAuth`
-- ===========================================================================

/-- The response-validation part of the token exchange in `performAuth`:
fail on a truthy `error` field, fail with the missing-refresh-token error
when `refresh_token` is absent or empty, otherwise build the record
(`access_token` is taken with a non-null assertion in the source). -/
def exchangeCode (now : Int) (data : TokenEndpointResponse) :
    Except AuthError TokenData :=
  if strTruthy data.error then
    .error (.tokenExchangeFailed (strOrDefault data.error_description (data.error.getD "")))
  else if !(strTruthy data.refresh_token) then
    .error .missingRefreshToken
  else
    .ok {
      access_token := data.access_token.getD ""
      refresh_token := data.refresh_token.getD ""
      expires_at := now + numOrDefault data.expires_in 7200 * 1000
      scope := strOrDefault data.scope SCOPES
      token_type := strOrDefault data.token_type "bearer"
    }

/-- Result of `performAuth`: success or error, the token store afterwards,
and whether the token-exchange POST was attempted at all. -/
structure PerformAuthResult where
  result : Except AuthError Unit
  store : TokenStore
  exchangeAttempted : Bool

/-- `performAuth` from the point the PKCE session exists: await the callback
with the session state, exchange the code (the endpoint is the oracle
`tokenEndpoint`, applied to the code sent in the POST body), and save the
record at the requested scope.  On every failure path the store is left
unchanged. -/
def performAuth (s : TokenStore) (globalFlag : Bool) (session : PKCESession)
    (requests : List CallbackRequest) (now : Int)
    (tokenEndpoint : String → TokenEndpointResponse) : PerformAuthResult :=
  match runListener session.state requests with
  | .timedOut => ⟨.error .authTimeout, s, false⟩
  | .rejected e => ⟨.error e, s, false⟩
  | .resolved code =>
    match exchangeCode now (tokenEndpoint code) with
    | .error e => ⟨.error e, s, true⟩
    | .ok td => ⟨.ok (), saveToken s td globalFlag, true⟩

-- ===========================================================================
-- `checkAuth` (auth.ts)
-- ===========================================================================

/-- The record returned by `checkAuth`. -/
structure CheckAuthResult where
  authenticated : Bool
  expiresAt : Option Int
  error : Option String
deriving DecidableEq

/-- `checkAuth`: load the token; authenticated iff not already expired
(`expires_at < Date.now()`); any load failure is caught and returned as a
message instead of propagating. -/
def checkAuth (s : TokenStore) (now : Int) : CheckAuthResult :=
  match loadToken s with
  | .ok tokenData => ⟨!decide (tokenData.expires_at < now), some tokenData.expires_at, none⟩
  | .error e => ⟨false, none, some e.message⟩

-- ===========================================================================
-- `getUsersByIds` (twitter.ts)
-- ===========================================================================

/-- The shape of a Twitter API v2 response body. -/
structure TwitterApiResponse (α : Type) where
  data : Option α

/-- The `user.fields` list requested by `getUsersByIds`. -/
def userFields : List String :=
  ["id", "name", "username", "created_at", "description", "location",
   "profile_image_url", "protected", "verified", "verified_type", "url",
   "public_metrics"]

/-- `getUsersByIds`, instrumented with the list of endpoints passed to
`twitterRequest` (empty when no API request is performed).  The user payload
type is abstract. -/
def getUsersByIds {α : Type} (api : String → TwitterApiResponse (List α))
    (userIds : List String) : Except String (List α) × List String :=
  if userIds.length = 0 then (.ok [], [])
  else if userIds.length > 100 then (.error "Maximum 100 user IDs per request", [])
  else
    let endpoint := "/users?ids=" ++ String.intercalate "," userIds ++
      "&user.fields=" ++ String.intercalate "," userFields
    (.ok ((api endpoint).data.getD []), [endpoint])

/-- Decidable equality for `Except`, for evaluating results on concrete
inputs. -/
instance {ε α : Type} [DecidableEq ε] [DecidableEq α] : DecidableEq (Except ε α) :=
  fun x y =>
    match x, y with
    | .error a, .error b =>
      if h : a = b then isTrue (by rw [h])
      else isFalse (by intro hc; injection hc; exact h ‹_›)
    | .error _, .ok _ => isFalse (by intro hc; exact Except.noConfusion hc)
    | .ok _, .error _ => isFalse (by intro hc; exact Except.noConfusion hc)
    | .ok a, .ok b =>
      if h : a = b then isTrue (by rw [h])
      else isFalse (by intro hc; injection hc; exact h ‹_›)

-- ===========================================================================
-- Lemmas about the encodings
-- ===========================================================================

theorem b64Index_b64Char : ∀ n < 64, b64Index (b64Char n) = n := by decide

theorem hexIndex_hexChar : ∀ n < 16, hexIndex (hexChar n) = n := by decide

theorem b64Char_ne_pad (n : Nat) : b64Char n ≠ '=' := by
  by_cases h : n < 64
  · exact (by decide : ∀ m < 64, b64Char m ≠ '=') n h
  · have hlen : base64urlAlphabet.length = 64 := rfl
    rw [b64Char, List.getD_eq_default]
    · decide
    · omega

/-- Decoding inverts encoding on byte lists. -/
theorem b64url_decode_encode : ∀ l : List Nat, (∀ b ∈ l, b < 256) →
    b64urlDecodeCore (b64urlEncodeCore l) = l
  | [], _ => rfl
  | [a], h => by
    have ha : a < 256 := h a (by simp)
    simp only [b64urlEncodeCore, b64urlDecodeCore]
    rw [b64Index_b64Char _ (by omega), b64Index_b64Char _ (by omega)]
    simp only [List.cons.injEq, and_true]
    omega
  | [a, b], h => by
    have ha : a < 256 := h a (by simp)
    have hb : b < 256 := h b (by simp)
    simp only [b64urlEncodeCore, b64urlDecodeCore]
    rw [b64Index_b64Char _ (by omega), b64Index_b64Char _ (by omega),
      b64Index_b64Char _ (by omega)]
    simp only [List.cons.injEq, and_true]
    omega
  | a :: b :: c :: rest, h => by
    have ha : a < 256 := h a (by simp)
    have hb : b < 256 := h b (by simp)
    have hc : c < 256 := h c (by simp)
    have ih := b64url_decode_encode rest (fun x hx => h x (by simp [hx]))
    simp only [b64urlEncodeCore, b64urlDecodeCore]
    rw [b64Index_b64Char _ (by omega), b64Index_b64Char _ (by omega),
      b64Index_b64Char _ (by omega), b64Index_b64Char _ (by omega)]
    simp only [List.cons.injEq, ih, and_true]
    omega

/-- The unpadded base64url encoding is injective on byte lists. -/
theorem b64urlEncode_inj {l1 l2 : List Nat} (h1 : ∀ b ∈ l1, b < 256)
    (h2 : ∀ b ∈ l2, b < 256) (he : b64urlEncode l1 = b64urlEncode l2) :
    l1 = l2 := by
  have hc : b64urlEncodeCore l1 = b64urlEncodeCore l2 := congrArg String.data he
  calc l1 = b64urlDecodeCore (b64urlEncodeCore l1) := (b64url_decode_encode l1 h1).symm
    _ = b64urlDecodeCore (b64urlEncodeCore l2) := by rw [hc]
    _ = l2 := b64url_decode_encode l2 h2

/-- Hex decoding inverts hex encoding on byte lists. -/
theorem hex_decode_encode : ∀ l : List Nat, (∀ b ∈ l, b < 256) →
    hexDecodeCore (hexEncodeCore l) = l
  | [], _ => rfl
  | b :: rest, h => by
    have hb : b < 256 := h b (by simp)
    have ih := hex_decode_encode rest (fun x hx => h x (by simp [hx]))
    simp only [hexEncodeCore, hexDecodeCore]
    rw [hexIndex_hexChar _ (by omega), hexIndex_hexChar _ (by omega)]
    simp only [List.cons.injEq, ih, and_true]
    omega

/-- The hex encoding is injective on byte lists. -/
theorem hexEncode_inj {l1 l2 : List Nat} (h1 : ∀ b ∈ l1, b < 256)
    (h2 : ∀ b ∈ l2, b < 256) (he : hexEncode l1 = hexEncode l2) : l1 = l2 := by
  have hc : hexEncodeCore l1 = hexEncodeCore l2 := congrArg String.data he
  calc l1 = hexDecodeCore (hexEncodeCore l1) := (hex_decode_encode l1 h1).symm
    _ = hexDecodeCore (hexEncodeCore l2) := by rw [hc]
    _ = l2 := hex_decode_encode l2 h2

/-- The padding character never appears in an unpadded base64url encoding. -/
theorem pad_not_mem_b64urlEncodeCore : ∀ l : List Nat, '=' ∉ b64urlEncodeCore l
  | [] => List.not_mem_nil _
  | [a] => by
    simp only [b64urlEncodeCore, List.mem_cons, List.not_mem_nil, or_false]
    push_neg
    exact ⟨Ne.symm (b64Char_ne_pad _), Ne.symm (b64Char_ne_pad _)⟩
  | [a, b] => by
    simp only [b64urlEncodeCore, List.mem_cons, List.not_mem_nil, or_false]
    push_neg
    exact ⟨Ne.symm (b64Char_ne_pad _), Ne.symm (b64Char_ne_pad _),
      Ne.symm (b64Char_ne_pad _)⟩
  | a :: b :: c :: rest => by
    have ih := pad_not_mem_b64urlEncodeCore rest
    simp only [b64urlEncodeCore, List.mem_cons, not_or]
    push_neg
    exact ⟨Ne.symm (b64Char_ne_pad _), Ne.symm (b64Char_ne_pad _),
      Ne.symm (b64Char_ne_pad _), Ne.symm (b64Char_ne_pad _), ih⟩

-- ===========================================================================
-- Claim theorems
-- ===========================================================================

/-- Claim C3: every PKCE session has `code_challenge` equal to the base64url
encoding of the SHA-256 digest of `code_verifier`; the verifier is the
unpadded base64url encoding of the 32 random bytes drawn for it; the state
is the (hex) encoding of an independent 16-random-byte draw; and two
sessions generated from distinct entropy draws share neither verifier nor
state. -/
theorem pkce_session_properties (sha256 : String → List Nat)
    (ve se ve' se' : List Nat)
    (hvl : ve.length = 32) (hvb : ∀ b ∈ ve, b < 256)
    (hsl : se.length = 16) (hsb : ∀ b ∈ se, b < 256)
    (hvl' : ve'.length = 32) (hvb' : ∀ b ∈ ve', b < 256)
    (hsl' : se'.length = 16) (hsb' : ∀ b ∈ se', b < 256)
    (hvne : ve ≠ ve') (hsne : se ≠ se') :
    (generatePKCESession sha256 ve se).code_challenge
        = b64urlEncode (sha256 (generatePKCESession sha256 ve se).code_verifier) ∧
    (generatePKCESession sha256 ve se).code_verifier = b64urlEncode ve ∧
    '=' ∉ (generatePKCESession sha256 ve se).code_verifier.data ∧
    (generatePKCESession sha256 ve se).state = hexEncode se ∧
    (generatePKCESession sha256 ve se).code_verifier
        ≠ (generatePKCESession sha256 ve' se').code_verifier ∧
    (generatePKCESession sha256 ve se).state
        ≠ (generatePKCESession sha256 ve' se').state := by
  refine ⟨rfl, rfl, pad_not_mem_b64urlEncodeCore ve, rfl, ?_, ?_⟩
  · intro h
    exact hvne (b64urlEncode_inj hvb hvb' h)
  · intro h
    exact hsne (hexEncode_inj hsb hsb' h)

theorem pkce_session_properties_witness :
    (generatePKCESession (fun _ => List.range 32) (List.range 32) (List.range 16)).code_challenge
        = b64urlEncode ((fun _ : String => List.range 32)
            (generatePKCESession (fun _ => List.range 32) (List.range 32) (List.range 16)).code_verifier) ∧
    (generatePKCESession (fun _ => List.range 32) (List.range 32) (List.range 16)).code_verifier
        = b64urlEncode (List.range 32) ∧
    '=' ∉ (generatePKCESession (fun _ => List.range 32) (List.range 32) (List.range 16)).code_verifier.data ∧
    (generatePKCESession (fun _ => List.range 32) (List.range 32) (List.range 16)).state
        = hexEncode (List.range 16) ∧
    (generatePKCESession (fun _ => List.range 32) (List.range 32) (List.range 16)).code_verifier
        ≠ (generatePKCESession (fun _ => List.range 32) (List.replicate 32 0) (List.replicate 16 1)).code_verifier ∧
    (generatePKCESession (fun _ => List.range 32) (List.range 32) (List.range 16)).state
        ≠ (generatePKCESession (fun _ => List.range 32) (List.replicate 32 0) (List.replicate 16 1)).state :=
  pkce_session_properties (fun _ => List.range 32)
    (List.range 32) (List.range 16) (List.replicate 32 0) (List.replicate 16 1)
    (by decide) (by decide) (by decide) (by decide) (by decide) (by decide)
    (by decide) (by decide) (by decide) (by decide)

/-- Claim C1: for every loaded token record, `getValidAccessToken` sends a
refresh request exactly when `expires_at < now + 5 minutes`, and whenever it
returns a token it is the `access_token` of the refreshed record (when a
refresh happened) or of the loaded record (when not). -/
theorem getValidAccessToken_refresh_policy (s : TokenStore) (now : Int)
    (refreshEndpoint : String → TokenEndpointResponse) (p : TokenPath)
    (td : TokenData) (hfind : findTokenPath s = some p)
    (hread : readTokenFile s p = some td) :
    ((getValidAccessToken s now refreshEndpoint).refreshRequest
        = if td.expires_at < now + bufferMs then some td.refresh_token else none) ∧
    (∀ a s', (getValidAccessToken s now refreshEndpoint).result = .ok (a, s') →
      (td.expires_at < now + bufferMs ∧
        ∃ td', refreshAccessToken now (refreshEndpoint td.refresh_token) = .ok td' ∧
          a = td'.access_token ∧ s' = saveToken s td' (p == .global)) ∨
      (¬ td.expires_at < now + bufferMs ∧ a = td.access_token ∧ s' = s)) := by
  simp only [getValidAccessToken, hfind, hread]
  by_cases hexp : td.expires_at < now + bufferMs
  · unfold refreshAccessTokenAt
    cases hres : refreshAccessToken now (refreshEndpoint td.refresh_token) with
    | error e =>
      refine ⟨by simp [hexp], ?_⟩
      intro a s' h
      simp [hexp] at h
    | ok td' =>
      refine ⟨by simp [hexp], ?_⟩
      intro a s' h
      simp only [if_pos hexp] at h
      rw [Except.ok.injEq, Prod.mk.injEq] at h
      exact .inl ⟨hexp, td', rfl, h.1.symm, h.2.symm⟩
  · refine ⟨by simp [hexp], ?_⟩
    intro a s' h
    simp only [if_neg hexp] at h
    rw [Except.ok.injEq, Prod.mk.injEq] at h
    exact .inr ⟨hexp, h.1.symm, h.2.symm⟩

/-- Claim C2 fails as stated: a callback request whose state mismatches but
which also carries a truthy `error` parameter is rejected with the OAuth
denial, not the CSRF mismatch, because the `error` check runs first. -/
theorem csrf_claim_counterexample :
    (let req : CallbackRequest :=
      ⟨some "CODE", some "wrongstate", some "access_denied", some "denied"⟩
     req.state ≠ some "expectedstate" ∧
     handleCallbackRequest "expectedstate" req
        = .reject (.oauthDenied "access_denied" "denied") 400 ∧
     handleCallbackRequest "expectedstate" req ≠ .reject .csrfMismatch 400 ∧
     runListener "expectedstate" [req] ≠ .rejected .csrfMismatch) := by
  decide

/-- Claim C2 (amended): every callback request without a truthy `error`
parameter whose `state` differs from the expected state is rejected with
the CSRF-mismatch error, the flow fails, and the authorization code in the
request is never used (no token exchange is attempted), even when a code is
present. -/
theorem csrf_mismatch_rejects (expectedState : String) (req : CallbackRequest)
    (herr : strTruthy req.error = false)
    (hs : req.state ≠ some expectedState) :
    handleCallbackRequest expectedState req = .reject .csrfMismatch 400 ∧
    (∀ rest, runListener expectedState (req :: rest) = .rejected .csrfMismatch) ∧
    (∀ s g session rest now ep, session.state = expectedState →
      performAuth s g session (req :: rest) now ep
        = ⟨.error .csrfMismatch, s, false⟩) := by
  have hstep : handleCallbackRequest expectedState req = .reject .csrfMismatch 400 := by
    simp [handleCallbackRequest, herr, hs]
  refine ⟨hstep, fun rest => ?_, fun s g session rest now ep hsess => ?_⟩
  · simp [runListener, hstep]
  · simp [performAuth, hsess, runListener, hstep]

theorem csrf_mismatch_rejects_witness :
    handleCallbackRequest "expectedstate" ⟨some "CODE", some "wrongstate", none, none⟩
      = .reject .csrfMismatch 400 ∧
    (∀ rest, runListener "expectedstate"
        (⟨some "CODE", some "wrongstate", none, none⟩ :: rest) = .rejected .csrfMismatch) ∧
    (∀ s g session rest now ep, session.state = "expectedstate" →
      performAuth s g session (⟨some "CODE", some "wrongstate", none, none⟩ :: rest) now ep
        = ⟨.error .csrfMismatch, s, false⟩) :=
  csrf_mismatch_rejects "expectedstate" ⟨some "CODE", some "wrongstate", none, none⟩
    (by decide) (by decide)

/-- Claim C4: every callback request carrying a truthy `error` parameter is
rejected with the OAuth denial built from `error` and `error_description`,
the flow terminates with that error, and the token-exchange POST is never
attempted. -/
theorem oauth_denied_rejects (expectedState : String) (req : CallbackRequest)
    (herr : strTruthy req.error = true) :
    handleCallbackRequest expectedState req
      = .reject (.oauthDenied (req.error.getD "") (req.error_description.getD "")) 400 ∧
    (∀ rest, runListener expectedState (req :: rest)
      = .rejected (.oauthDenied (req.error.getD "") (req.error_description.getD ""))) ∧
    (∀ s g session rest now ep, session.state = expectedState →
      performAuth s g session (req :: rest) now ep
        = ⟨.error (.oauthDenied (req.error.getD "") (req.error_description.getD "")),
           s, false⟩) := by
  have hstep : handleCallbackRequest expectedState req
      = .reject (.oauthDenied (req.error.getD "") (req.error_description.getD "")) 400 := by
    simp [handleCallbackRequest, herr]
  refine ⟨hstep, fun rest => ?_, fun s g session rest now ep hsess => ?_⟩
  · simp [runListener, hstep]
  · simp [performAuth, hsess, runListener, hstep]

theorem oauth_denied_rejects_witness :
    handleCallbackRequest "expectedstate"
        ⟨some "CODE", some "expectedstate", some "access_denied", some "user denied"⟩
      = .reject (.oauthDenied "access_denied" "user denied") 400 ∧
    (∀ rest, runListener "expectedstate"
        (⟨some "CODE", some "expectedstate", some "access_denied", some "user denied"⟩ :: rest)
      = .rejected (.oauthDenied "access_denied" "user denied")) ∧
    (∀ s g session rest now ep, session.state = "expectedstate" →
      performAuth s g session
          (⟨some "CODE", some "expectedstate", some "access_denied", some "user denied"⟩ :: rest)
          now ep
        = ⟨.error (.oauthDenied "access_denied" "user denied"), s, false⟩) :=
  oauth_denied_rejects "expectedstate"
    ⟨some "CODE", some "expectedstate", some "access_denied", some "user denied"⟩
    (by decide)

/-- Claim C8 fails as stated: a request with no code, no error and no
matching state (e.g. a favicon fetch with no query parameters) hits the
state-mismatch check, which rejects the whole flow with the CSRF error
instead of answering 404 and keeping the listener alive. -/
theorem noise_claim_counterexample :
    (let req : CallbackRequest := ⟨none, none, none, none⟩
     strTruthy req.code = false ∧ strTruthy req.error = false ∧
     req.state ≠ some "expectedstate" ∧
     handleCallbackRequest "expectedstate" req = .reject .csrfMismatch 400 ∧
     handleCallbackRequest "expectedstate" req ≠ .keepListening 404 ∧
     runListener "expectedstate" [req] = .rejected .csrfMismatch) := by
  decide

/-- Claim C8 (amended): a request carrying no truthy `code` and no truthy
`error` whose `state` equals the expected state is answered with an empty
404 and the listener keeps waiting: the flow is neither resolved nor
rejected by that request. -/
theorem matched_state_noise_keeps_listening (expectedState : String)
    (req : CallbackRequest) (herr : strTruthy req.error = false)
    (hs : req.state = some expectedState) (hc : strTruthy req.code = false) :
    handleCallbackRequest expectedState req = .keepListening 404 ∧
    ∀ rest, runListener expectedState (req :: rest) = runListener expectedState rest := by
  have hstep : handleCallbackRequest expectedState req = .keepListening 404 := by
    simp [handleCallbackRequest, herr, hs, hc]
  exact ⟨hstep, fun rest => by simp [runListener, hstep]⟩

theorem matched_state_noise_keeps_listening_witness :
    handleCallbackRequest "expectedstate" ⟨none, some "expectedstate", none, none⟩
      = .keepListening 404 ∧
    ∀ rest, runListener "expectedstate" (⟨none, some "expectedstate", none, none⟩ :: rest)
      = runListener "expectedstate" rest :=
  matched_state_noise_keeps_listening "expectedstate"
    ⟨none, some "expectedstate", none, none⟩ (by decide) (by decide) (by decide)

theorem getValidAccessToken_refresh_policy_witness :
    (getValidAccessToken ⟨some ⟨"A", "R", 240000, "tweet.read", "bearer"⟩, none⟩ 0
        (fun _ => ⟨some "A2", some "R2", some 7200, none, none, none, none⟩)).refreshRequest
      = some "R" ∧
    (getValidAccessToken ⟨some ⟨"A", "R", 360000, "tweet.read", "bearer"⟩, none⟩ 0
        (fun _ => ⟨some "A2", some "R2", some 7200, none, none, none, none⟩)).refreshRequest
      = none := by
  have h1 := getValidAccessToken_refresh_policy
    ⟨some ⟨"A", "R", 240000, "tweet.read", "bearer"⟩, none⟩ 0
    (fun _ => ⟨some "A2", some "R2", some 7200, none, none, none, none⟩) .project
    ⟨"A", "R", 240000, "tweet.read", "bearer"⟩ rfl rfl
  have h2 := getValidAccessToken_refresh_policy
    ⟨some ⟨"A", "R", 360000, "tweet.read", "bearer"⟩, none⟩ 0
    (fun _ => ⟨some "A2", some "R2", some 7200, none, none, none, none⟩) .project
    ⟨"A", "R", 360000, "tweet.read", "bearer"⟩ rfl rfl
  refine ⟨?_, ?_⟩
  · rw [h1.1]; decide
  · rw [h2.1]; decide

/-- Claim C5 fails as stated: a token-exchange response that lacks a
`refresh_token` but carries an `error` field fails with the token-exchange
error, not the missing-refresh-token error, because the `error` check runs
first. -/
theorem missing_refresh_claim_counterexample :
    (let resp : TokenEndpointResponse :=
      ⟨none, none, none, none, none, some "invalid_request", none⟩
     resp.refresh_token = none ∧
     exchangeCode 0 resp = .error (.tokenExchangeFailed "invalid_request") ∧
     exchangeCode 0 resp ≠ .error .missingRefreshToken) := by
  decide

/-- Claim C5 (amended): whenever the listener resolves with a code and the
token-exchange response has no truthy `error` field and no truthy
`refresh_token`, `performAuth` fails with the missing-refresh-token error,
whose message carries the revoke-and-retry guidance, and no token record is
written (the store is unchanged). -/
theorem missing_refresh_token_fails (s : TokenStore) (g : Bool)
    (session : PKCESession) (reqs : List CallbackRequest) (now : Int)
    (ep : String → TokenEndpointResponse) (code : String)
    (hrun : runListener session.state reqs = .resolved code)
    (herr : strTruthy (ep code).error = false)
    (hrt : strTruthy (ep code).refresh_token = false) :
    performAuth s g session reqs now ep = ⟨.error .missingRefreshToken, s, true⟩ ∧
    AuthError.missingRefreshToken.message =
      "No refresh token received.\n" ++
      "This can happen if you\x27ve already authorized this app.\n" ++
      "Fix: Go to https://twitter.com/settings/connected_apps\n" ++
      "     Remove access for this app, then run auth again." := by
  refine ⟨?_, rfl⟩
  simp [performAuth, hrun, exchangeCode, herr, hrt]

theorem missing_refresh_token_fails_witness :
    performAuth ⟨none, none⟩ false ⟨"v", "c", "expectedstate"⟩
        [⟨some "CODE", some "expectedstate", none, none⟩] 0
        (fun _ => ⟨some "T1", none, some 7200, none, none, none, none⟩)
      = ⟨.error .missingRefreshToken, ⟨none, none⟩, true⟩ ∧
    AuthError.missingRefreshToken.message =
      "No refresh token received.\n" ++
      "This can happen if you\x27ve already authorized this app.\n" ++
      "Fix: Go to https://twitter.com/settings/connected_apps\n" ++
      "     Remove access for this app, then run auth again." :=
  missing_refresh_token_fails ⟨none, none⟩ false ⟨"v", "c", "expectedstate"⟩
    [⟨some "CODE", some "expectedstate", none, none⟩] 0
    (fun _ => ⟨some "T1", none, some 7200, none, none, none, none⟩) "CODE"
    (by decide) (by decide) (by decide)

/-- Claim C6: token lookup prefers the project-scoped file over the global
one when both exist; when only the global file exists the global path is
returned; and `loadToken` fails with the not-authenticated error exactly
when no path resolves. -/
theorem token_lookup_precedence (s : TokenStore) :
    (s.projectFile.isSome → s.globalFile.isSome → findTokenPath s = some .project) ∧
    (s.projectFile = none → s.globalFile.isSome → findTokenPath s = some .global) ∧
    (loadToken s = .error .tokenNotFound ↔ findTokenPath s = none) := by
  obtain ⟨pf, gf⟩ := s
  cases pf <;> cases gf <;>
    simp [findTokenPath, loadToken, readTokenFile]

theorem token_lookup_precedence_witness :
    (let tdP : TokenData := ⟨"AP", "RP", 1000, "tweet.read", "bearer"⟩
     let tdG : TokenData := ⟨"AG", "RG", 2000, "tweet.read", "bearer"⟩
     findTokenPath ⟨some tdP, some tdG⟩ = some .project ∧
     findTokenPath ⟨none, some tdG⟩ = some .global ∧
     (loadToken ⟨none, none⟩ = .error .tokenNotFound ↔
        findTokenPath (⟨none, none⟩ : TokenStore) = none)) := by
  refine ⟨?_, ?_, ?_⟩
  · exact (token_lookup_precedence
      ⟨some ⟨"AP", "RP", 1000, "tweet.read", "bearer"⟩,
       some ⟨"AG", "RG", 2000, "tweet.read", "bearer"⟩⟩).1 (by decide) (by decide)
  · exact (token_lookup_precedence
      ⟨none, some ⟨"AG", "RG", 2000, "tweet.read", "bearer"⟩⟩).2.1 rfl (by decide)
  · exact (token_lookup_precedence ⟨none, none⟩).2.2

/-- Characterisation of a successful refresh response. -/
theorem refreshAccessToken_ok_iff (now : Int) (data : TokenEndpointResponse)
    (td : TokenData) :
    refreshAccessToken now data = .ok td ↔
      (strTruthy data.error = false ∧ strTruthy data.access_token = true ∧
       strTruthy data.refresh_token = true ∧
       td = ⟨data.access_token.getD "", data.refresh_token.getD "",
             now + numOrDefault data.expires_in 7200 * 1000,
             strOrDefault data.scope SCOPES,
             strOrDefault data.token_type "bearer"⟩) := by
  unfold refreshAccessToken
  cases he : strTruthy data.error <;> cases ha : strTruthy data.access_token <;>
    cases hr : strTruthy data.refresh_token <;> simp [eq_comm]

/-- Every refresh failure is one of the two token-refresh failure throws. -/
theorem refreshAccessToken_error_kind (now : Int) (data : TokenEndpointResponse)
    (e : AuthError) (h : refreshAccessToken now data = .error e) :
    e.isTokenRefreshFailed = true := by
  unfold refreshAccessToken at h
  cases he : strTruthy data.error <;> rw [he] at h
  · cases hb : (strTruthy data.access_token && strTruthy data.refresh_token) <;>
      rw [hb] at h <;> simp at h
    · rw [← h]; rfl
  · simp at h
    rw [← h]; rfl

/-- Saving at the project scope makes the saved record the one that loads. -/
theorem loadToken_save_project (s : TokenStore) (td : TokenData) :
    loadToken (saveToken s td false) = .ok td := by
  simp [loadToken, saveToken, findTokenPath, readTokenFile]

/-- Saving at the global scope makes the saved record the one that loads,
provided no project-scoped file shadows it. -/
theorem loadToken_save_global (s : TokenStore) (td : TokenData)
    (h : s.projectFile = none) :
    loadToken (saveToken s td true) = .ok td := by
  simp [loadToken, saveToken, findTokenPath, readTokenFile, h]

/-- When the resolved token path is the global one, no project file exists. -/
theorem findTokenPath_global_projectFile (s : TokenStore)
    (h : findTokenPath s = some .global) : s.projectFile = none := by
  by_cases hp : s.projectFile.isSome
  · simp [findTokenPath, hp] at h
  · exact Option.not_isSome_iff_eq_none.mp hp

/-- The refresh token `getValidAccessToken` sends, when it sends one, is
always the `refresh_token` field of the record that loads from the store. -/
theorem getValidAccessToken_refreshRequest_source (s : TokenStore) (now : Int)
    (ep : String → TokenEndpointResponse) :
    (getValidAccessToken s now ep).refreshRequest = none ∨
    ∃ td, loadToken s = .ok td ∧
      (getValidAccessToken s now ep).refreshRequest = some td.refresh_token := by
  cases hfind : findTokenPath s with
  | none => left; simp [getValidAccessToken, hfind]
  | some p =>
    cases hread : readTokenFile s p with
    | none => left; simp [getValidAccessToken, hfind, hread]
    | some td =>
      by_cases hexp : td.expires_at < now + bufferMs
      · right
        refine ⟨td, by simp [loadToken, hfind, hread], ?_⟩
        cases hres : refreshAccessTokenAt s p now (ep td.refresh_token) <;>
          simp [getValidAccessToken, hfind, hread, hexp, hres]
      · left; simp [getValidAccessToken, hfind, hread, hexp]

/-- Claim C7: a refresh succeeds exactly when the response has no truthy
`error` field and both a truthy `access_token` and `refresh_token`; on
success the persisted record replaces both tokens with the response values;
every refresh failure is a token-refresh failure; and after a refresh
performed by `getValidAccessToken` the stored record holds the refresh token
from the response, so any later call sends only that new token (never the
old one) to the endpoint. -/
theorem refresh_rotation :
    (∀ now data, (∃ td, refreshAccessToken now data = .ok td) ↔
      (strTruthy data.error = false ∧ strTruthy data.access_token = true ∧
       strTruthy data.refresh_token = true)) ∧
    (∀ now data td, refreshAccessToken now data = .ok td →
      td.access_token = data.access_token.getD "" ∧
      td.refresh_token = data.refresh_token.getD "") ∧
    (∀ now data e, refreshAccessToken now data = .error e →
      e.isTokenRefreshFailed = true) ∧
    (∀ s now ep a s' oldRT,
      getValidAccessToken s now ep = ⟨.ok (a, s'), some oldRT⟩ →
      (∃ td', loadToken s' = .ok td' ∧
        td'.refresh_token = (ep oldRT).refresh_token.getD "") ∧
      (∀ now' ep', (getValidAccessToken s' now' ep').refreshRequest = none ∨
        (getValidAccessToken s' now' ep').refreshRequest
          = some ((ep oldRT).refresh_token.getD ""))) := by
  refine ⟨?_, ?_, ?_, ?_⟩
  · intro now data
    constructor
    · rintro ⟨td, h⟩
      have := (refreshAccessToken_ok_iff now data td).mp h
      exact ⟨this.1, this.2.1, this.2.2.1⟩
    · rintro ⟨he, ha, hr⟩
      exact ⟨_, (refreshAccessToken_ok_iff now data _).mpr ⟨he, ha, hr, rfl⟩⟩
  · intro now data td h
    have := (refreshAccessToken_ok_iff now data td).mp h
    rw [this.2.2.2]
    exact ⟨rfl, rfl⟩
  · exact refreshAccessToken_error_kind
  · intro s now ep a s' oldRT h
    cases hfind : findTokenPath s with
    | none => simp [getValidAccessToken, hfind] at h
    | some p =>
      cases hread : readTokenFile s p with
      | none => simp [getValidAccessToken, hfind, hread] at h
      | some td =>
        by_cases hexp : td.expires_at < now + bufferMs
        · cases hres : refreshAccessToken now (ep td.refresh_token) with
          | error e =>
            simp [getValidAccessToken, hfind, hread, hexp, refreshAccessTokenAt, hres] at h
          | ok td' =>
            have hinv := (refreshAccessToken_ok_iff now (ep td.refresh_token) td').mp hres
            simp only [getValidAccessToken, hfind, hread, if_pos hexp,
              refreshAccessTokenAt, hres, GetTokenResult.mk.injEq,
              Except.ok.injEq, Prod.mk.injEq, Option.some.injEq] at h
            obtain ⟨⟨ha, hs'⟩, hold⟩ := h
            subst hold
            have hnew : td'.refresh_token = (ep td.refresh_token).refresh_token.getD "" := by
              rw [hinv.2.2.2]
            have hload : loadToken s' = .ok td' := by
              cases p with
              | project => rw [← hs']; exact loadToken_save_project s td'
              | global =>
                rw [← hs']
                exact loadToken_save_global s td' (findTokenPath_global_projectFile s hfind)
            refine ⟨⟨td', hload, hnew⟩, ?_⟩
            intro now' ep'
            rcases getValidAccessToken_refreshRequest_source s' now' ep' with hc | ⟨td0, hl0, hr0⟩
            · exact .inl hc
            · right
              rw [hload] at hl0
              injection hl0 with hl0
              rw [hr0, ← hl0, hnew]
        · simp [getValidAccessToken, hfind, hread, hexp] at h

theorem refresh_rotation_witness :
    ∃ td', loadToken (saveToken ⟨some ⟨"A", "OLD", 0, "tweet.read", "bearer"⟩, none⟩
        ⟨"A2", "NEW", 7200000, SCOPES, "bearer"⟩ false) = .ok td' ∧
      td'.refresh_token
        = ((fun _ : String => (⟨some "A2", some "NEW", some 7200, none, none, none,
            none⟩ : TokenEndpointResponse)) "OLD").refresh_token.getD "" := by
  have h := refresh_rotation.2.2.2 ⟨some ⟨"A", "OLD", 0, "tweet.read", "bearer"⟩, none⟩ 0
    (fun _ => ⟨some "A2", some "NEW", some 7200, none, none, none, none⟩) "A2"
    (saveToken ⟨some ⟨"A", "OLD", 0, "tweet.read", "bearer"⟩, none⟩
      ⟨"A2", "NEW", 7200000, SCOPES, "bearer"⟩ false) "OLD" rfl
  exact h.1

/-- Claim C9: `checkAuth` never throws: it reports `authenticated = true`
exactly when a token record loads and its `expires_at` is not strictly
before `now` (reporting that timestamp), and any load failure is returned
as `authenticated = false` carrying the error message instead of
propagating. -/
theorem checkAuth_total_behavior (s : TokenStore) (now : Int) :
    ((checkAuth s now).authenticated = true ↔
      ∃ td, loadToken s = .ok td ∧ ¬ td.expires_at < now) ∧
    (∀ td, loadToken s = .ok td →
      checkAuth s now = ⟨!decide (td.expires_at < now), some td.expires_at, none⟩) ∧
    (∀ e, loadToken s = .error e →
      checkAuth s now = ⟨false, none, some e.message⟩) := by
  unfold checkAuth
  cases hl : loadToken s with
  | ok td => simp
  | error e => simp

theorem checkAuth_total_behavior_witness :
    ((checkAuth ⟨some ⟨"A", "R", 1000, "tweet.read", "bearer"⟩, none⟩ 500).authenticated
        = true ↔
      ∃ td, loadToken (⟨some ⟨"A", "R", 1000, "tweet.read", "bearer"⟩, none⟩ : TokenStore)
          = .ok td ∧ ¬ td.expires_at < 500) ∧
    checkAuth ⟨none, none⟩ 500 = ⟨false, none, some AuthError.tokenNotFound.message⟩ :=
  ⟨(checkAuth_total_behavior ⟨some ⟨"A", "R", 1000, "tweet.read", "bearer"⟩, none⟩ 500).1,
   (checkAuth_total_behavior ⟨none, none⟩ 500).2.2 .tokenNotFound rfl⟩

/-- Claim C10: `getUsersByIds` returns the empty list and performs no API
request on an empty ID list, and fails with the maximum-IDs error, again
without performing any API request, when given more than 100 IDs. -/
theorem getUsersByIds_guards {α : Type} (api : String → TwitterApiResponse (List α))
    (userIds : List String) :
    (userIds = [] → getUsersByIds api userIds = (.ok [], [])) ∧
    (userIds.length > 100 →
      getUsersByIds api userIds = (.error "Maximum 100 user IDs per request", [])) := by
  constructor
  · intro h
    subst h
    rfl
  · intro h
    have h0 : userIds.length ≠ 0 := by omega
    simp [getUsersByIds, h0, h]

theorem getUsersByIds_guards_witness :
    getUsersByIds (fun _ => (⟨none⟩ : TwitterApiResponse (List Nat))) [] = (.ok [], []) ∧
    getUsersByIds (fun _ => (⟨none⟩ : TwitterApiResponse (List Nat)))
        (List.replicate 101 "x")
      = (.error "Maximum 100 user IDs per request", []) :=
  ⟨(getUsersByIds_guards (fun _ => (⟨none⟩ : TwitterApiResponse (List Nat))) []).1 rfl,
   (getUsersByIds_guards (fun _ => (⟨none⟩ : TwitterApiResponse (List Nat)))
      (List.replicate 101 "x")).2 (by simp)⟩

end TwitterSkill
